import Mathlib

/-!
Verification development for the fashion e-commerce recommendation subsystem.

The development shallowly embeds the three algorithmic components of the
repository: the navigation graph builder (semantic_enrichment.py), the
recommendation engine (recommendation_engine.py) and the session simulator
(user_simulator.py).  Scores, which the source computes in floating point,
are modelled as exact rationals; every score constant in the source
(0.1, 0.2, 0.25, 0.05, thresholds 0.85, 0.70, 0.50) is an exact decimal, so
the rational model tracks the algebra of the source directly.  Randomness
(the diversity-injection trial, session lengths, walk choices) is passed in
explicitly, one draw per use site, so that every behaviour of the source
corresponds to some choice of the explicit random inputs.
-/

/-- Primary garment vocabulary (semantic_enrichment.py, PRIMARY_GARMENT_TYPES). -/
def PRIMARY_GARMENT_TYPES : List String := ["t-shirt", "shorts", "dress", "skirt", "swimsuit"]

/-- Accessory garment vocabulary (semantic_enrichment.py, ACCESSORY_GARMENT_TYPES). -/
def ACCESSORY_GARMENT_TYPES : List String := ["sunglasses", "hat", "belt", "bag", "watch", "sandals"]

/-- A catalog item record as read from image_metadata (the fields used by the
navigation builder and the recommendation engine). -/
structure Item where
  image_id : String
  style_tags : List String
  dominant_colors : List String
  garment_type : String
  gender : String
deriving DecidableEq

/-- A single-quote character as a string; used to build the reason strings of
the source verbatim. -/
def sglq : String := String.singleton (Char.ofNat 39)

/-- The distinct style tags shared by two items, in the tag order of the first:
models the value of `set(a.style_tags) & set(b.style_tags)` in the source. -/
def sharedTagList (a b : Item) : List String :=
  a.style_tags.dedup.filter (fun t => t ∈ b.style_tags)

/-- Number of distinct shared style tags: `len(set(a) & set(b))`. -/
def sharedCount (a b : Item) : Nat := (sharedTagList a b).length

/-- semantic_enrichment.calculate_similarity_score.  Returns the clipped score
together with the list of contributing rationale strings, rules applied in
source order.  (The unused all_images_map parameter of the source is dropped.) -/
def calculate_similarity_score (source candidate : Item) : ℚ × List String :=
  let shared := sharedTagList source candidate
  let s1 : ℚ := if shared ≠ [] then (shared.length : ℚ) / 10 else 0
  let r1 : List String :=
    if shared ≠ [] then ["Shared style_tags: " ++ String.intercalate ", " shared] else []
  let s2 : ℚ :=
    if source.garment_type = candidate.garment_type then 2 / 10
    else if candidate.garment_type ∈ source.style_tags then 1 / 10
    else 0
  let r2 : List String :=
    if source.garment_type = candidate.garment_type then
      ["Same garment_type: " ++ source.garment_type]
    else if candidate.garment_type ∈ source.style_tags then
      ["Candidate garment_type " ++ sglq ++ candidate.garment_type ++ sglq ++ " in source style_tags."]
    else []
  let s3 : ℚ :=
    if source.garment_type ∈ PRIMARY_GARMENT_TYPES ∧
        candidate.garment_type ∈ ACCESSORY_GARMENT_TYPES then 25 / 100
    else if source.garment_type ∈ ACCESSORY_GARMENT_TYPES ∧
        candidate.garment_type ∈ PRIMARY_GARMENT_TYPES then 25 / 100
    else 0
  let r3 : List String :=
    if source.garment_type ∈ PRIMARY_GARMENT_TYPES ∧
        candidate.garment_type ∈ ACCESSORY_GARMENT_TYPES then
      ["Accessory complement: source is primary (" ++ source.garment_type ++
        "), candidate is accessory (" ++ candidate.garment_type ++ ")"]
    else if source.garment_type ∈ ACCESSORY_GARMENT_TYPES ∧
        candidate.garment_type ∈ PRIMARY_GARMENT_TYPES then
      ["Accessory complement: source is accessory (" ++ source.garment_type ++
        "), candidate is primary (" ++ candidate.garment_type ++ ")"]
    else []
  (min (s1 + s2 + s3) 1, r1 ++ r2 ++ r3)

/-- A selected navigation candidate: an entry of the
selected_next_images working list. -/
structure Cand where
  image_id : String
  score : ℚ
  reason_extra : Option String
deriving DecidableEq

/-- Insert x in front of the first element y with le x y = true.  With a total
transitive le this is the insertion step of a stable insertion sort. -/
def insertOrd (le : α → α → Bool) (x : α) : List α → List α
  | [] => [x]
  | y :: ys => if le x y then x :: y :: ys else y :: insertOrd le x ys

/-- Stable insertion sort: the unique stable sort with respect to le, hence the
model of Python sorted / list.sort with the corresponding key. -/
def sortOrd (le : α → α → Bool) : List α → List α
  | [] => []
  | x :: xs => insertOrd le x (sortOrd le xs)

/-- Comparison for `sort(key=lambda x: x["score"], reverse=True)`: x may come
before y when its score is at least that of y. -/
def candLe (x y : Cand) : Bool := decide (y.score ≤ x.score)

/-- Candidate sort used in generate_navigation_paths (both sort sites). -/
def sortByScoreDesc : List Cand → List Cand := sortOrd candLe

/-- The potential_candidates list of generate_navigation_paths: every other
item whose clipped similarity score exceeds the 0.1 threshold. -/
def potentialCandidates (snapshot : List Item) (src : Item) : List Cand :=
  snapshot.filterMap (fun c =>
    if c.image_id = src.image_id then none
    else
      let s := (calculate_similarity_score src c).1
      if 1 / 10 < s then some ⟨c.image_id, s, none⟩ else none)

/-- The top-5 selection loop over the sorted candidates: append while fewer
than 5 are selected, skipping duplicate ids, stop once 5 are selected. -/
def selectTopAux : List Cand → List Cand → List Cand
  | [], acc => acc
  | c :: rest, acc =>
    if acc.length < 5 then
      if c.image_id ∈ acc.map Cand.image_id then selectTopAux rest acc
      else selectTopAux rest (acc ++ [c])
    else acc

/-- Index and score of the first lowest-scoring selected entry (the
lowest_score_idx / min_score scan of the source, with its 2.0 sentinel). -/
def lowestAux : List Cand → Nat → Nat × ℚ → Nat × ℚ
  | [], _, b => b
  | c :: rest, i, b => if c.score < b.2 then lowestAux rest (i + 1) (i, c.score) else lowestAux rest (i + 1) b

/-- First index attaining the minimal score, together with that score. -/
def lowest (l : List Cand) : Nat × ℚ := lowestAux l 0 (0, 2)

/-- The reason_extra text attached to style-variation edges. -/
def variationReason : String := "Style variation (different gender, similar tags)"

/-- The style-variation scan of generate_navigation_paths: walk the snapshot in
order; for each item of a different gender sharing at least 2 style tags that
is neither the source nor already selected, add a variation edge (replacing the
first lowest-scoring edge when already full, only if the variation score beats
it); stop as soon as 5 edges are selected. -/
def variationLoop (src : Item) : List Item → List Cand → List Cand
  | [], sel => sel
  | c :: rest, sel =>
    if c.image_id = src.image_id ∨ c.image_id ∈ sel.map Cand.image_id then
      variationLoop src rest sel
    else if src.gender ≠ c.gender ∧ 2 ≤ sharedCount src c then
      let vscore : ℚ := 1 / 10 + (sharedCount src c : ℚ) / 10
      if 5 ≤ sel.length then
        if (lowest sel).2 < vscore then
          let sel2 := sel.eraseIdx (lowest sel).1 ++ [⟨c.image_id, min vscore 1, some variationReason⟩]
          if 5 ≤ sel2.length then sel2 else variationLoop src rest sel2
        else variationLoop src rest sel
      else
        let sel2 := sel ++ [⟨c.image_id, min vscore 1, some variationReason⟩]
        if 5 ≤ sel2.length then sel2 else variationLoop src rest sel2
    else variationLoop src rest sel

/-- The final selected edge list for one source item: top-5 primary selection,
optional style-variation pass (always when fewer than 3 primary edges, else
only when the per-source Bernoulli(0.2) trial succeeds, supplied here as the
explicit draw `coin`), final stable re-sort by descending score, truncation
to 5. -/
def finalSelected (snapshot : List Item) (coin : String → Bool) (src : Item) : List Cand :=
  let sel := selectTopAux (sortByScoreDesc (potentialCandidates snapshot src)) []
  let sel2 := if sel.length < 3 ∨ coin src.image_id then variationLoop src snapshot sel else sel
  (sortByScoreDesc sel2).take 5

/-- Round a rational to 2 decimal places: models round(x, 2) of the source.
On the reachable scores (integer multiples of 1/20) the float round of the
source and this rational round agree exactly. -/
def round2 (q : ℚ) : ℚ := (round (q * 100) : ℤ) / 100

/-- A persisted navigation path row (image_navigation_paths). -/
structure NavPath where
  source_image_id : String
  next_possible_images : List String
  path_scores : List ℚ
  reason : String
deriving DecidableEq

/-- Default overall reason text of a navigation path. -/
def generalReasonDefault : String :=
  "Path generated based on shared styles, garment types, and accessory complementarity."

/-- The overall reason of a path: recompute the similarity rationale of the top
edge (appending its variation tag when present) and format the primary link. -/
def generalReason (snapshot : List Item) (src : Item) (fin : List Cand) : String :=
  match fin with
  | [] => generalReasonDefault
  | top :: _ =>
    match snapshot.find? (fun it => it.image_id = top.image_id) with
    | none => generalReasonDefault
    | some topMeta =>
      let rs := (calculate_similarity_score src topMeta).2 ++
        (match top.reason_extra with | some e => [e] | none => [])
      if rs = [] then generalReasonDefault
      else "Primary Link: " ++ src.image_id ++ " to " ++ top.image_id ++
        " - Reasons: " ++ String.intercalate "; " rs ++ ". Other suggestions follow similar logic."

/-- Build the navigation path of one source item; a source with an empty final
selection produces no row. -/
def mkNavPath (snapshot : List Item) (coin : String → Bool) (src : Item) : Option NavPath :=
  let fin := finalSelected snapshot coin src
  if fin.isEmpty then none
  else some
    { source_image_id := src.image_id
      next_possible_images := fin.map Cand.image_id
      path_scores := fin.map (fun c => round2 c.score)
      reason := generalReason snapshot src fin }

/-- semantic_enrichment.generate_navigation_paths over a catalog snapshot, with
the per-source diversity-trial draws supplied as `coin`. -/
def generate_navigation_paths (snapshot : List Item) (coin : String → Bool) : List NavPath :=
  snapshot.filterMap (mkNavPath snapshot coin)

/-- The generic placeholder reason attached to every navigation candidate of a
recommendation request. -/
def placeholderReason : String := "This item complements your current selection."

/-- Per-candidate working data of the recommendation engine. -/
structure RecData where
  score : ℚ
  reasons : List String
deriving DecidableEq

/-- Python dict assignment on an association list: overwrite the value at an
existing key in place, else append the new binding. -/
def assocUpsert (k : String) (v : RecData) : List (String × RecData) → List (String × RecData)
  | [] => [(k, v)]
  | (k2, v2) :: rest => if k2 = k then (k2, v) :: rest else (k2, v2) :: assocUpsert k v rest

/-- The candidate_scores dict: nav edges zipped with their scores, each entry
carrying the base score and the placeholder reason. -/
def candidateScores (navIds : List String) (navScores : List ℚ) : List (String × RecData) :=
  (navIds.zip navScores).foldl
    (fun acc p => assocUpsert p.1 ⟨p.2, [placeholderReason]⟩ acc) []

/-- Filter step of generate_recommendations_for_pair: drop the source id and
every id in the click history. -/
def filteredCandidates (navIds : List String) (navScores : List ℚ)
    (history : List String) (source : String) : List (String × RecData) :=
  (candidateScores navIds navScores).filter
    (fun p => ¬(p.1 = source) ∧ p.1 ∉ history)

/-- All style tags of the liked items, with multiplicity (the underlying
multiset of the Counter over tags). -/
def likedTags (liked : List Item) : List String := liked.flatMap Item.style_tags

/-- All dominant colors of the liked items, with multiplicity. -/
def likedColors (liked : List Item) : List String := liked.flatMap Item.dominant_colors

/-- Liked garment types, skipping falsy (empty) values, with multiplicity. -/
def likedGarments (liked : List Item) : List String :=
  liked.filterMap (fun m => if m.garment_type = "" then none else some m.garment_type)

/-- The boost reasons produced for one candidate, in source order: one per
candidate style tag found in the history aggregate, then one per dominant
color found there, then the garment-variety reason. -/
def boostReasonList (srcMeta : Item) (liked : List Item) (cm : Item) : List String :=
  (cm.style_tags.filterMap (fun t =>
    if 0 < (likedTags liked).count t then
      some ("You previously liked items with similar " ++ sglq ++ t ++ sglq ++ " style.")
    else none)) ++
  (cm.dominant_colors.filterMap (fun c =>
    if 0 < (likedColors liked).count c then
      some ("You previously liked items with similar " ++ sglq ++ c ++ sglq ++ " color.")
    else none)) ++
  (if cm.garment_type ≠ "" ∧ 0 < (likedGarments liked).count cm.garment_type ∧
      cm.garment_type ≠ srcMeta.garment_type then
    ["You previously liked " ++ sglq ++ cm.garment_type ++ sglq ++ " type items."]
  else [])

/-- The boosted score of one candidate: base score plus the tag, color and
garment-variety boosts, accumulated in source order. -/
def boostScore (srcMeta : Item) (liked : List Item) (cm : Item) (base : ℚ) : ℚ :=
  let s1 := cm.style_tags.foldl
    (fun s t => if 0 < (likedTags liked).count t then s + ((likedTags liked).count t : ℚ) / 10 else s)
    base
  let s2 := cm.dominant_colors.foldl
    (fun s c => if 0 < (likedColors liked).count c then s + ((likedColors liked).count c : ℚ) / 20 else s)
    s1
  if cm.garment_type ≠ "" ∧ 0 < (likedGarments liked).count cm.garment_type ∧
      cm.garment_type ≠ srcMeta.garment_type then s2 + 2 / 10 else s2

/-- String comparison for `sorted(...)` on reason lists. -/
def strLe (x y : String) : Bool := decide (x ≤ y)

/-- `sorted(list(set(l)))` of the source: the lexicographically sorted list of
the distinct elements of l. -/
def dedupSortStrings (l : List String) : List String := sortOrd strLe l.dedup

/-- The reason merge of the source: when any boost reason was produced, replace
the reasons entirely when the placeholder is present, else append; then
deduplicate and sort.  With no boost reason the reasons are left untouched. -/
def mergeReasons (old : List String) (boost : List String) : List String :=
  if boost ≠ [] then
    if placeholderReason ∈ old then dedupSortStrings boost
    else dedupSortStrings (old ++ boost)
  else old

/-- The boosting pass applied to one filtered candidate (lines 168-196 of
recommendation_engine.py): a candidate with unresolved metadata is skipped. -/
def boostOne (meta : String → Option Item) (srcMeta : Item) (liked : List Item)
    (p : String × RecData) : String × RecData :=
  match meta p.1 with
  | none => p
  | some cm =>
    (p.1, ⟨boostScore srcMeta liked cm p.2.score,
      mergeReasons p.2.reasons (boostReasonList srcMeta liked cm)⟩)

/-- The boosted candidate list: boosting runs only when the user has liked
items with resolvable metadata. -/
def boostedCandidates (meta : String → Option Item) (srcMeta : Item)
    (history : List String) (navIds : List String) (navScores : List ℚ)
    (source : String) : List (String × RecData) :=
  let liked := history.filterMap meta
  let filtered := filteredCandidates navIds navScores history source
  if liked ≠ [] then filtered.map (boostOne meta srcMeta liked) else filtered

/-- Comparison for the final ranking sort (descending boosted score). -/
def pairLe (x y : String × RecData) : Bool := decide (y.2.score ≤ x.2.score)

/-- recommendation_engine.generate_recommendations_for_pair as a function of
the metadata view (database plus cache), the stored navigation row of the
source, the user click history and the source id.  Returns the top-3
recommended ids with their joined reason strings; an unresolvable source
metadata yields the empty result. -/
def generate_recommendations_for_pair (meta : String → Option Item)
    (nav : String → List String × List ℚ) (history : List String)
    (source : String) : List String × List String :=
  match meta source with
  | none => ([], [])
  | some srcMeta =>
    let boosted := boostedCandidates meta srcMeta history (nav source).1 (nav source).2 source
    let ranked := sortOrd pairLe boosted
    let top := ranked.take 3
    (top.map Prod.fst, top.map (fun p => String.intercalate ". " p.2.reasons))

/-- The per-pair loop of recommendation_engine.main: a pair whose engine result
is empty writes nothing and the batch continues; otherwise the row
(user, source, recommended ids, reasons) is appended to the recommendations
log.  Returns the written rows in order. -/
def runBatch (meta : String → Option Item) (nav : String → List String × List ℚ)
    (histories : String → List String) :
    List (String × String) → List (String × String × List String × List String)
  | [] => []
  | (u, src) :: rest =>
    let r := generate_recommendations_for_pair meta nav (histories u) src
    if r.1 = [] then runBatch meta nav histories rest
    else (u, src, r.1, r.2) :: runBatch meta nav histories rest

/-- A user_interactions row as written by the simulator. -/
structure Event where
  user_id : String
  image_id : String
  clicked : Bool
deriving DecidableEq

/-- The random draws one loop step of a session may consume: the action-choice
roll, the index draw for random.choice, the click roll, and the index draw of
the bounce reassignment. -/
structure StepRand where
  action : ℚ
  pick : Nat
  clickRoll : ℚ
  pick2 : Nat

/-- random.choice over a nonempty list, with the index draw reduced modulo the
length (on an empty list the result is the dummy empty string). -/
def choice (l : List String) (i : Nat) : String := l.getD (i % l.length) ""

/-- The per-step walk of simulate_user_sessions after the seed click: follow a
navigation edge when the 0.85 trial succeeds and the current item has a stored
path (bouncing to a random item on a non-click), fall back to a random item
with a 0.50 click chance when the stored path is empty, and random-skip
otherwise.  Exactly one interaction row is recorded per step. -/
def sessionSteps (allIds : List String) (nav : String → Option (List String))
    (u : String) : String → List StepRand → List Event
  | _, [] => []
  | cur, r :: rest =>
    if r.action < 85 / 100 ∧ (nav cur).isSome then
      let nexts := (nav cur).getD []
      if nexts ≠ [] then
        let viewed := choice nexts r.pick
        let clicked := if r.clickRoll < 70 / 100 then true else false
        let next := if clicked then viewed else choice allIds r.pick2
        ⟨u, viewed, clicked⟩ :: sessionSteps allIds nav u next rest
      else
        let nxt := choice allIds r.pick
        ⟨u, nxt, if r.clickRoll < 50 / 100 then true else false⟩ :: sessionSteps allIds nav u nxt rest
    else
      let nxt := choice allIds r.pick
      ⟨u, nxt, if r.clickRoll < 50 / 100 then true else false⟩ :: sessionSteps allIds nav u nxt rest

/-- The random draws of one user session: the session-length seed, the index
draw of the entry item, and the per-step draws. -/
structure UserRand where
  lenSeed : Nat
  firstPick : Nat
  steps : Nat → StepRand

/-- random.randint(3, 7): uniform on 3..7 when the seed is uniform. -/
def randint37 (seed : Nat) : Nat := 3 + seed % 5

/-- One user session: a seed interaction on a random entry item, always
clicked, followed by session_length - 1 walk steps. -/
def simulateSession (allIds : List String) (nav : String → Option (List String))
    (u : String) (ur : UserRand) : List Event :=
  let len := randint37 ur.lenSeed
  let first := choice allIds ur.firstPick
  ⟨u, first, true⟩ :: sessionSteps allIds nav u first ((List.range (len - 1)).map ur.steps)

/-- Zero-padded 3-digit formatting of f-string user ids. -/
def pad3 (n : Nat) : String :=
  if n < 10 then "00" ++ toString n else if n < 100 then "0" ++ toString n else toString n

/-- USER_IDS of user_simulator.py: user001 .. user015. -/
def USER_IDS : List String := (List.range 15).map (fun i => "user" ++ pad3 (i + 1))

/-- user_simulator.simulate_user_sessions under the assumption that every
interaction write succeeds: the recorded events of each user session, keyed by
user id.  With no catalog ids the simulation records nothing. -/
def simulate_user_sessions (allIds : List String) (nav : String → Option (List String))
    (rnd : String → UserRand) : List (String × List Event) :=
  if allIds = [] then []
  else USER_IDS.map (fun u => (u, simulateSession allIds nav u (rnd u)))

/-- Concrete item used to exhibit the asymmetry of the similarity score. -/
def itemA : Item := ⟨"a", ["dress"], [], "t-shirt", "men"⟩

/-- Concrete item used to exhibit the asymmetry of the similarity score. -/
def itemB : Item := ⟨"b", [], [], "dress", "men"⟩

/-- Two-item snapshot: same gender, two shared tags, distinct garment types
outside both vocabularies. -/
def wItemA : Item := ⟨"a", ["t1", "t2"], [], "ga", "men"⟩

/-- Second item of the two-item snapshot. -/
def wItemB : Item := ⟨"b", ["t1", "t2"], [], "gb", "men"⟩

/-- The two-item snapshot. -/
def snap2 : List Item := [wItemA, wItemB]

/-- Source of the diversity-trial snapshot: a primary garment with two tags. -/
def dSrc : Item := ⟨"s", ["x", "y"], [], "t-shirt", "men"⟩

/-- Accessory neighbours of the diversity-trial snapshot. -/
def dAcc1 : Item := ⟨"c1", [], [], "sunglasses", "men"⟩

/-- Accessory neighbour 2. -/
def dAcc2 : Item := ⟨"c2", [], [], "hat", "men"⟩

/-- Accessory neighbour 3. -/
def dAcc3 : Item := ⟨"c3", [], [], "belt", "men"⟩

/-- Accessory neighbour 4. -/
def dAcc4 : Item := ⟨"c4", [], [], "bag", "men"⟩

/-- Accessory neighbour 5. -/
def dAcc5 : Item := ⟨"c5", [], [], "watch", "men"⟩

/-- Cross-gender variation candidate sharing both tags of the source. -/
def dVar : Item := ⟨"v", ["x", "y"], [], "g6", "women"⟩

/-- Seven-item snapshot on which the diversity trial changes the output. -/
def snap7 : List Item := [dSrc, dAcc1, dAcc2, dAcc3, dAcc4, dAcc5, dVar]

/-- Source of the tie-break snapshot. -/
def tSrc : Item := ⟨"s", ["t1", "t2"], [], "g0", "men"⟩

/-- Tie candidate with the larger id, listed first in the catalog. -/
def tBig : Item := ⟨"c2", ["t1", "t2"], [], "g2", "men"⟩

/-- Tie candidate with the smaller id, listed second in the catalog. -/
def tSmall : Item := ⟨"c1", ["t1", "t2"], [], "g1", "men"⟩

/-- Snapshot exhibiting the stable (catalog-order) tie-break. -/
def snap3 : List Item := [tSrc, tBig, tSmall]

/-- Metadata view for the recommendation witnesses. -/
def meta5 : String → Option Item := fun i => if i = "a" then some wItemA else none

/-- Navigation view for the recommendation witnesses. -/
def nav5 : String → List String × List ℚ := fun _ => (["b"], [0])

/-- A liked history item tagged casual. -/
def likedCasual1 : Item := ⟨"l1", ["casual"], [], "", "men"⟩

/-- Second liked history item tagged casual. -/
def likedCasual2 : Item := ⟨"l2", ["casual"], [], "", "men"⟩

/-- Third liked history item tagged casual. -/
def likedCasual3 : Item := ⟨"l3", ["casual"], [], "", "men"⟩

/-- The three-item liked history of the casual scenario. -/
def likedCasual : List Item := [likedCasual1, likedCasual2, likedCasual3]

/-- The candidate of the casual scenario, itself tagged casual. -/
def cmCasual : Item := ⟨"c", ["casual"], [], "", "men"⟩

/-- The source item of the casual scenario. -/
def srcCasual : Item := ⟨"s", [], [], "", "men"⟩

/-- Metadata view of the casual scenario. -/
def metaCasual : String → Option Item := fun i => if i = "c" then some cmCasual else none

/-- The filtered candidate entry of the casual scenario: base edge score 0.5
with the placeholder reason. -/
def pCasual : String × RecData := ("c", ⟨1 / 2, [placeholderReason]⟩)

/-- The boost reason the casual scenario produces. -/
def casualReason : String :=
  "You previously liked items with similar " ++ sglq ++ "casual" ++ sglq ++ " style."

/-- Catalog ids of the simulator witness. -/
def allIds8 : List String := ["a"]

/-- Navigation view of the simulator witness: no stored paths. -/
def nav8 : String → Option (List String) := fun _ => none

/-- Random draws of the simulator witness: all zero. -/
def rnd8 : String → UserRand := fun _ => ⟨0, 0, fun _ => ⟨0, 0, 0, 0⟩⟩

/-- The recorded event of every witness session step. -/
def ev8 : Event := ⟨"user001", "a", true⟩

theorem insertOrd_perm (le : α → α → Bool) (x : α) (l : List α) :
    (insertOrd le x l).Perm (x :: l) := by
  induction l with
  | nil => exact List.Perm.refl _
  | cons y ys ih =>
    rw [insertOrd]
    by_cases h : le x y = true
    · rw [if_pos h]
    · rw [if_neg h]
      exact (ih.cons y).trans (List.Perm.swap x y ys)

theorem sortOrd_perm (le : α → α → Bool) (l : List α) : (sortOrd le l).Perm l := by
  induction l with
  | nil => exact List.Perm.refl _
  | cons x xs ih =>
    rw [sortOrd]
    exact (insertOrd_perm le x (sortOrd le xs)).trans (ih.cons x)

theorem mem_sortOrd {le : α → α → Bool} {l : List α} {a : α} :
    a ∈ sortOrd le l ↔ a ∈ l :=
  (sortOrd_perm le l).mem_iff

theorem pairwise_insertOrd (le : α → α → Bool)
    (htot : ∀ a b, le a b = true ∨ le b a = true)
    (htrans : ∀ a b c, le a b = true → le b c = true → le a c = true)
    (x : α) (l : List α) (hl : l.Pairwise (fun a b => le a b = true)) :
    (insertOrd le x l).Pairwise (fun a b => le a b = true) := by
  induction l with
  | nil => simp [insertOrd]
  | cons y ys ih =>
    rcases List.pairwise_cons.mp hl with ⟨hy, hys⟩
    rw [insertOrd]
    by_cases h : le x y = true
    · rw [if_pos h]
      refine List.pairwise_cons.mpr ⟨?_, hl⟩
      intro b hb
      rcases List.mem_cons.mp hb with rfl | hb
      · exact h
      · exact htrans x y b h (hy b hb)
    · rw [if_neg h]
      refine List.pairwise_cons.mpr ⟨?_, ih hys⟩
      intro b hb
      rcases List.mem_cons.mp ((insertOrd_perm le x ys).mem_iff.mp hb) with hbx | hb
      · rw [hbx]
        exact (htot x y).resolve_left h
      · exact hy b hb

theorem pairwise_sortOrd (le : α → α → Bool)
    (htot : ∀ a b, le a b = true ∨ le b a = true)
    (htrans : ∀ a b c, le a b = true → le b c = true → le a c = true)
    (l : List α) : (sortOrd le l).Pairwise (fun a b => le a b = true) := by
  induction l with
  | nil => simp [sortOrd]
  | cons x xs ih =>
    rw [sortOrd]
    exact pairwise_insertOrd le htot htrans x (sortOrd le xs) ih

theorem sublist_insertOrd (le : α → α → Bool) (x : α) (l : List α) :
    List.Sublist l (insertOrd le x l) := by
  induction l with
  | nil => exact List.nil_sublist _
  | cons y ys ih =>
    rw [insertOrd]
    by_cases h : le x y = true
    · rw [if_pos h]
      exact List.Sublist.cons x (List.Sublist.refl _)
    · rw [if_neg h]
      exact ih.cons₂ y

theorem pair_sublist_insertOrd (le : α → α → Bool) (x y : α) (hxy : le x y = true)
    (l : List α) (hy : y ∈ l) : List.Sublist [x, y] (insertOrd le x l) := by
  induction l with
  | nil => cases hy
  | cons z zs ih =>
    rw [insertOrd]
    by_cases h : le x z = true
    · rw [if_pos h]
      exact (List.singleton_sublist.mpr hy).cons₂ x
    · rw [if_neg h]
      rcases List.mem_cons.mp hy with rfl | hmem
      · exact absurd hxy h
      · exact (ih hmem).cons z

theorem sortOrd_stable (le : α → α → Bool) (x y : α) (hxy : le x y = true)
    (l : List α) (h : List.Sublist [x, y] l) : List.Sublist [x, y] (sortOrd le l) := by
  induction l with
  | nil => cases h
  | cons z t ih =>
    rw [sortOrd]
    cases h with
    | cons _ h2 => exact (ih h2).trans (sublist_insertOrd le z (sortOrd le t))
    | cons₂ _ h2 =>
      exact pair_sublist_insertOrd le x y hxy (sortOrd le t)
        ((sortOrd_perm le t).mem_iff.mpr (List.singleton_sublist.mp h2))

theorem candLe_total : ∀ a b : Cand, candLe a b = true ∨ candLe b a = true := by
  intro a b
  unfold candLe
  rcases le_total b.score a.score with h | h
  · exact Or.inl (decide_eq_true h)
  · exact Or.inr (decide_eq_true h)

theorem candLe_trans : ∀ a b c : Cand, candLe a b = true → candLe b c = true →
    candLe a c = true := by
  intro a b c hab hbc
  unfold candLe at *
  exact decide_eq_true (le_trans (of_decide_eq_true hbc) (of_decide_eq_true hab))

theorem pairLe_total : ∀ a b : String × RecData, pairLe a b = true ∨ pairLe b a = true := by
  intro a b
  unfold pairLe
  rcases le_total b.2.score a.2.score with h | h
  · exact Or.inl (decide_eq_true h)
  · exact Or.inr (decide_eq_true h)

theorem pairLe_trans : ∀ a b c : String × RecData, pairLe a b = true → pairLe b c = true →
    pairLe a c = true := by
  intro a b c hab hbc
  unfold pairLe at *
  exact decide_eq_true (le_trans (of_decide_eq_true hbc) (of_decide_eq_true hab))

theorem strLe_total : ∀ a b : String, strLe a b = true ∨ strLe b a = true := by
  intro a b
  unfold strLe
  rcases le_total a b with h | h
  · exact Or.inl (decide_eq_true h)
  · exact Or.inr (decide_eq_true h)

theorem strLe_trans : ∀ a b c : String, strLe a b = true → strLe b c = true →
    strLe a c = true := by
  intro a b c hab hbc
  unfold strLe at *
  exact decide_eq_true (le_trans (of_decide_eq_true hab) (of_decide_eq_true hbc))

theorem calc_score_nonneg (s c : Item) : 0 ≤ (calculate_similarity_score s c).1 := by
  unfold calculate_similarity_score
  dsimp only
  refine le_min ?_ (by norm_num)
  have h1 : (0 : ℚ) ≤
      (if sharedTagList s c ≠ [] then ((sharedTagList s c).length : ℚ) / 10 else 0) := by
    split_ifs <;> positivity
  have h2 : (0 : ℚ) ≤
      (if s.garment_type = c.garment_type then 2 / 10
        else if c.garment_type ∈ s.style_tags then 1 / 10 else 0) := by
    split_ifs <;> norm_num
  have h3 : (0 : ℚ) ≤
      (if s.garment_type ∈ PRIMARY_GARMENT_TYPES ∧
          c.garment_type ∈ ACCESSORY_GARMENT_TYPES then 25 / 100
        else if s.garment_type ∈ ACCESSORY_GARMENT_TYPES ∧
          c.garment_type ∈ PRIMARY_GARMENT_TYPES then 25 / 100 else 0) := by
    split_ifs <;> norm_num
  linarith

theorem calc_score_le_one (s c : Item) : (calculate_similarity_score s c).1 ≤ 1 := by
  unfold calculate_similarity_score
  exact min_le_right _ _

theorem potentialCandidates_good (snapshot : List Item) (src : Item) :
    ∀ c ∈ potentialCandidates snapshot src,
      0 ≤ c.score ∧ c.score ≤ 1 ∧ c.image_id ≠ src.image_id := by
  intro c hc
  rw [potentialCandidates, List.mem_filterMap] at hc
  obtain ⟨it, hitmem, hit⟩ := hc
  by_cases h1 : it.image_id = src.image_id
  · rw [if_pos h1] at hit
    cases hit
  · rw [if_neg h1] at hit
    dsimp only at hit
    by_cases h2 : 1 / 10 < (calculate_similarity_score src it).1
    · rw [if_pos h2] at hit
      cases hit
      exact ⟨calc_score_nonneg src it, calc_score_le_one src it, h1⟩
    · rw [if_neg h2] at hit
      cases hit

theorem selectTopAux_mem : ∀ (l acc : List Cand) (c : Cand),
    c ∈ selectTopAux l acc → c ∈ l ∨ c ∈ acc := by
  intro l
  induction l with
  | nil =>
    intro acc c hc
    rw [selectTopAux] at hc
    exact Or.inr hc
  | cons z rest ih =>
    intro acc c hc
    rw [selectTopAux] at hc
    split_ifs at hc with h1 h2
    · rcases ih acc c hc with h | h
      · exact Or.inl (List.mem_cons_of_mem z h)
      · exact Or.inr h
    · rcases ih (acc ++ [z]) c hc with h | h
      · exact Or.inl (List.mem_cons_of_mem z h)
      · rcases List.mem_append.mp h with h | h
        · exact Or.inr h
        · exact Or.inl (List.mem_cons.mpr (Or.inl (List.mem_singleton.mp h)))
    · exact Or.inr hc

theorem variationLoop_good (src : Item) (l : List Item) : ∀ sel : List Cand,
    (∀ c ∈ sel, 0 ≤ c.score ∧ c.score ≤ 1 ∧ c.image_id ≠ src.image_id) →
    ∀ c ∈ variationLoop src l sel,
      0 ≤ c.score ∧ c.score ≤ 1 ∧ c.image_id ≠ src.image_id := by
  induction l with
  | nil =>
    intro sel hsel c hc
    rw [variationLoop] at hc
    exact hsel c hc
  | cons z rest ih =>
    intro sel hsel c hc
    rw [variationLoop] at hc
    dsimp only at hc
    split_ifs at hc with h1 h2 h3 h4 h5 h6
    · exact ih sel hsel c hc
    · -- full, variation beats the lowest, the new list already has 5 entries
      have hzid : z.image_id ≠ src.image_id := fun h => h1 (Or.inl h)
      have hgood2 : ∀ c ∈ sel.eraseIdx (lowest sel).1 ++
          [⟨z.image_id, min (1 / 10 + (sharedCount src z : ℚ) / 10) 1, some variationReason⟩],
          0 ≤ c.score ∧ c.score ≤ 1 ∧ c.image_id ≠ src.image_id := by
        intro d hd
        rcases List.mem_append.mp hd with h | h
        · exact hsel d ((List.eraseIdx_sublist sel (lowest sel).1).subset h)
        · rw [List.mem_singleton.mp h]
          refine ⟨le_min (by positivity) (by norm_num), min_le_right _ _, hzid⟩
      exact hgood2 c hc
    · -- full, variation beats the lowest, recurse on the replaced list
      have hzid : z.image_id ≠ src.image_id := fun h => h1 (Or.inl h)
      refine ih _ ?_ c hc
      intro d hd
      rcases List.mem_append.mp hd with h | h
      · exact hsel d ((List.eraseIdx_sublist sel (lowest sel).1).subset h)
      · rw [List.mem_singleton.mp h]
        refine ⟨le_min (by positivity) (by norm_num), min_le_right _ _, hzid⟩
    · exact ih sel hsel c hc
    · -- not full, the appended list already has 5 entries
      have hzid : z.image_id ≠ src.image_id := fun h => h1 (Or.inl h)
      rcases List.mem_append.mp hc with h | h
      · exact hsel c h
      · rw [List.mem_singleton.mp h]
        refine ⟨le_min (by positivity) (by norm_num), min_le_right _ _, hzid⟩
    · -- not full, recurse on the appended list
      have hzid : z.image_id ≠ src.image_id := fun h => h1 (Or.inl h)
      refine ih _ ?_ c hc
      intro d hd
      rcases List.mem_append.mp hd with h | h
      · exact hsel d h
      · rw [List.mem_singleton.mp h]
        refine ⟨le_min (by positivity) (by norm_num), min_le_right _ _, hzid⟩
    · exact ih sel hsel c hc

theorem finalSelected_good (snapshot : List Item) (coin : String → Bool) (src : Item) :
    ∀ c ∈ finalSelected snapshot coin src,
      0 ≤ c.score ∧ c.score ≤ 1 ∧ c.image_id ≠ src.image_id := by
  intro c hc
  unfold finalSelected at hc
  dsimp only at hc
  have hsel : ∀ d ∈ selectTopAux (sortByScoreDesc (potentialCandidates snapshot src)) [],
      0 ≤ d.score ∧ d.score ≤ 1 ∧ d.image_id ≠ src.image_id := by
    intro d hd
    rcases selectTopAux_mem _ _ d hd with h | h
    · exact potentialCandidates_good snapshot src d (mem_sortOrd.mp h)
    · cases h
  have hc2 := mem_sortOrd.mp ((List.take_sublist 5 _).subset hc)
  by_cases hbranch :
      (selectTopAux (sortByScoreDesc (potentialCandidates snapshot src)) []).length < 3 ∨
        coin src.image_id = true
  · rw [if_pos hbranch] at hc2
    exact variationLoop_good src snapshot _ hsel c hc2
  · rw [if_neg hbranch] at hc2
    exact hsel c hc2

theorem finalSelected_sorted (snapshot : List Item) (coin : String → Bool) (src : Item) :
    (finalSelected snapshot coin src).Pairwise (fun a b => b.score ≤ a.score) := by
  unfold finalSelected
  dsimp only
  refine List.Pairwise.sublist (List.take_sublist 5 _) ?_
  refine (pairwise_sortOrd candLe candLe_total candLe_trans _).imp ?_
  intro a b h
  exact of_decide_eq_true h

theorem finalSelected_length (snapshot : List Item) (coin : String → Bool) (src : Item) :
    (finalSelected snapshot coin src).length ≤ 5 := by
  unfold finalSelected
  dsimp only
  rw [List.length_take]
  exact min_le_left 5 _

theorem round2_mono {a b : ℚ} (h : a ≤ b) : round2 a ≤ round2 b := by
  unfold round2
  have h100 : a * 100 ≤ b * 100 := by linarith
  have hr : round (a * 100) ≤ round (b * 100) := by
    rw [round_eq, round_eq]
    exact Int.floor_le_floor (by linarith)
  have : ((round (a * 100) : ℤ) : ℚ) ≤ ((round (b * 100) : ℤ) : ℚ) := by exact_mod_cast hr
  linarith

theorem round2_zero : round2 0 = 0 := by
  unfold round2
  norm_num

theorem round2_one : round2 1 = 1 := by
  unfold round2
  rw [show ((1 : ℚ) * 100) = ((100 : ℤ) : ℚ) by norm_num, round_intCast]
  norm_num

theorem round2_nonneg {a : ℚ} (h : 0 ≤ a) : 0 ≤ round2 a := by
  have := round2_mono h
  rw [round2_zero] at this
  exact this

theorem round2_le_one {a : ℚ} (h : a ≤ 1) : round2 a ≤ 1 := by
  have := round2_mono h
  rw [round2_one] at this
  exact this

theorem round2_hundredth (k : ℤ) : round2 ((k : ℚ) / 100) = (k : ℚ) / 100 := by
  unfold round2
  rw [show ((k : ℚ) / 100 * 100) = ((k : ℤ) : ℚ) by ring, round_intCast]

theorem mkNavPath_eq_some {snapshot : List Item} {coin : String → Bool} {src : Item}
    {p : NavPath} (h : mkNavPath snapshot coin src = some p) :
    p.source_image_id = src.image_id ∧
    p.next_possible_images = (finalSelected snapshot coin src).map Cand.image_id ∧
    p.path_scores = (finalSelected snapshot coin src).map (fun c => round2 c.score) := by
  unfold mkNavPath at h
  by_cases he : (finalSelected snapshot coin src).isEmpty = true
  · rw [if_pos he] at h
    cases h
  · rw [if_neg he] at h
    cases h
    exact ⟨rfl, rfl, rfl⟩

/-- Claim C3: every NavigationPath produced by generate_navigation_paths, for any
catalog snapshot and any diversity-trial draws, has at most 5 edges, all its
stored scores lie in [0, 1], no listed neighbour id equals the source item id,
and the stored scores are in non-increasing order. -/
theorem C3_navigation_path_invariants (snapshot : List Item) (coin : String → Bool)
    (p : NavPath) (hp : p ∈ generate_navigation_paths snapshot coin) :
    p.next_possible_images.length ≤ 5 ∧
    (∀ q ∈ p.path_scores, 0 ≤ q ∧ q ≤ 1) ∧
    (∀ t ∈ p.next_possible_images, t ≠ p.source_image_id) ∧
    p.path_scores.Pairwise (fun a b => b ≤ a) := by
  rw [generate_navigation_paths, List.mem_filterMap] at hp
  obtain ⟨src, hsrc, hmk⟩ := hp
  obtain ⟨h1, h2, h3⟩ := mkNavPath_eq_some hmk
  refine ⟨?_, ?_, ?_, ?_⟩
  · rw [h2, List.length_map]
    exact finalSelected_length snapshot coin src
  · rw [h3]
    intro q hq
    obtain ⟨c, hc, hcq⟩ := List.mem_map.mp hq
    obtain ⟨hg1, hg2, _⟩ := finalSelected_good snapshot coin src c hc
    rw [← hcq]
    exact ⟨round2_nonneg hg1, round2_le_one hg2⟩
  · rw [h2, h1]
    intro t ht
    obtain ⟨c, hc, hct⟩ := List.mem_map.mp ht
    rw [← hct]
    exact (finalSelected_good snapshot coin src c hc).2.2
  · rw [h3, List.pairwise_map]
    exact (finalSelected_sorted snapshot coin src).imp (fun h => round2_mono h)

/-- Claim C10: for every produced NavigationPath the stored score list is a parallel
array of the same length as the neighbour list, the path is keyed by a source
item of the snapshot with both arrays obtained from the final selected edges,
each stored score being the selected edge score rounded to 2 decimal places,
so every persisted score is an integer multiple of 1/100. -/
theorem C10_parallel_rounded_scores (snapshot : List Item) (coin : String → Bool)
    (p : NavPath) (hp : p ∈ generate_navigation_paths snapshot coin) :
    p.path_scores.length = p.next_possible_images.length ∧
    (∃ src ∈ snapshot, p.source_image_id = src.image_id ∧
      p.next_possible_images = (finalSelected snapshot coin src).map Cand.image_id ∧
      p.path_scores = (finalSelected snapshot coin src).map (fun c => round2 c.score)) ∧
    ∀ q ∈ p.path_scores, ∃ k : ℤ, q = (k : ℚ) / 100 := by
  rw [generate_navigation_paths, List.mem_filterMap] at hp
  obtain ⟨src, hsrc, hmk⟩ := hp
  obtain ⟨h1, h2, h3⟩ := mkNavPath_eq_some hmk
  refine ⟨?_, ⟨src, hsrc, h1, h2, h3⟩, ?_⟩
  · rw [h2, h3, List.length_map, List.length_map]
  · rw [h3]
    intro q hq
    obtain ⟨c, hc, hcq⟩ := List.mem_map.mp hq
    exact ⟨round (c.score * 100), by rw [← hcq]; rfl⟩

theorem sharedTagList_length (A B : Item) :
    (sharedTagList A B).length = (A.style_tags.toFinset ∩ B.style_tags.toFinset).card := by
  unfold sharedTagList
  have hnd : (A.style_tags.dedup.filter (fun t => t ∈ B.style_tags)).Nodup :=
    (List.nodup_dedup A.style_tags).filter _
  have h1 : (A.style_tags.dedup.filter (fun t => t ∈ B.style_tags)).toFinset.card
      = (A.style_tags.dedup.filter (fun t => t ∈ B.style_tags)).length := by
    rw [List.card_toFinset, hnd.dedup]
  rw [← h1]
  congr 1
  ext x
  simp [List.mem_filter, List.mem_dedup]

theorem sharedCount_comm (A B : Item) : sharedCount A B = sharedCount B A := by
  unfold sharedCount
  rw [sharedTagList_length, sharedTagList_length, Finset.inter_comm]

/-- Claim C1: the claim that calculate_similarity_score is symmetric for every pair
of distinct items is false on the code: the cross rule that awards 0.1 when
the garment type of the candidate occurs among the style tags of the source
fires in one direction only.  With itemA (garment t-shirt, style tag dress)
and itemB (garment dress, no tags) the score is 0.1 one way and 0 the other. -/
theorem C1_counterexample_asymmetric_pair :
    (calculate_similarity_score itemA itemB).1 ≠ (calculate_similarity_score itemB itemA).1 := by
  norm_num +decide [calculate_similarity_score, sharedTagList, itemA, itemB,
    PRIMARY_GARMENT_TYPES, ACCESSORY_GARMENT_TYPES, min_def]

/-- Amended C1: the similarity score is symmetric for every pair of items in
which the asymmetric cross rule fires equally in both directions, that is when
the two garment types coincide or when membership of the garment type of
either item among the style tags of the other holds in both directions or in
neither.  All remaining rules (shared-tag count, identical garment types,
primary/accessory complementarity, the final clip) are symmetric. -/
theorem C1_similarity_symmetry_amended (A B : Item)
    (h : A.garment_type = B.garment_type ∨
      ((B.garment_type ∈ A.style_tags) ↔ (A.garment_type ∈ B.style_tags))) :
    (calculate_similarity_score A B).1 = (calculate_similarity_score B A).1 := by
  unfold calculate_similarity_score
  dsimp only
  have hlen : ((sharedTagList A B).length : ℚ) = ((sharedTagList B A).length : ℚ) := by
    exact_mod_cast congrArg Nat.cast (sharedCount_comm A B)
  have hs1 : (if sharedTagList A B ≠ [] then ((sharedTagList A B).length : ℚ) / 10 else 0)
      = (if sharedTagList B A ≠ [] then ((sharedTagList B A).length : ℚ) / 10 else 0) := by
    by_cases h1 : sharedTagList A B = []
    · have h2 : sharedTagList B A = [] := by
        have := sharedCount_comm A B
        unfold sharedCount at this
        rw [h1] at this
        exact List.length_eq_zero.mp this.symm
      rw [if_neg (fun hc => hc h1), if_neg (fun hc => hc h2)]
    · have h2 : sharedTagList B A ≠ [] := by
        intro h2
        have := sharedCount_comm A B
        unfold sharedCount at this
        rw [h2] at this
        exact h1 (List.length_eq_zero.mp this)
      rw [if_pos h1, if_pos h2, hlen]
  have hs2 : (if A.garment_type = B.garment_type then (2 : ℚ) / 10
        else if B.garment_type ∈ A.style_tags then 1 / 10 else 0)
      = (if B.garment_type = A.garment_type then (2 : ℚ) / 10
        else if A.garment_type ∈ B.style_tags then 1 / 10 else 0) := by
    by_cases hg : A.garment_type = B.garment_type
    · rw [if_pos hg, if_pos hg.symm]
    · have hg2 : ¬(B.garment_type = A.garment_type) := fun hc => hg hc.symm
      rw [if_neg hg, if_neg hg2]
      rcases h with h | h
      · exact absurd h hg
      · by_cases hm : B.garment_type ∈ A.style_tags
        · rw [if_pos hm, if_pos (h.mp hm)]
        · have hm2 : ¬(A.garment_type ∈ B.style_tags) := fun hc => hm (h.mpr hc)
          rw [if_neg hm, if_neg hm2]
  have hs3 : (if A.garment_type ∈ PRIMARY_GARMENT_TYPES ∧
          B.garment_type ∈ ACCESSORY_GARMENT_TYPES then (25 : ℚ) / 100
        else if A.garment_type ∈ ACCESSORY_GARMENT_TYPES ∧
          B.garment_type ∈ PRIMARY_GARMENT_TYPES then 25 / 100 else 0)
      = (if B.garment_type ∈ PRIMARY_GARMENT_TYPES ∧
          A.garment_type ∈ ACCESSORY_GARMENT_TYPES then (25 : ℚ) / 100
        else if B.garment_type ∈ ACCESSORY_GARMENT_TYPES ∧
          A.garment_type ∈ PRIMARY_GARMENT_TYPES then 25 / 100 else 0) := by
    by_cases h1 : A.garment_type ∈ PRIMARY_GARMENT_TYPES ∧
        B.garment_type ∈ ACCESSORY_GARMENT_TYPES
    · rw [if_pos h1]
      by_cases h2 : B.garment_type ∈ PRIMARY_GARMENT_TYPES ∧
          A.garment_type ∈ ACCESSORY_GARMENT_TYPES
      · rw [if_pos h2]
      · rw [if_neg h2, if_pos ⟨h1.2, h1.1⟩]
    · rw [if_neg h1]
      by_cases h2 : A.garment_type ∈ ACCESSORY_GARMENT_TYPES ∧
          B.garment_type ∈ PRIMARY_GARMENT_TYPES
      · rw [if_pos h2]
        by_cases h3 : B.garment_type ∈ PRIMARY_GARMENT_TYPES ∧
            A.garment_type ∈ ACCESSORY_GARMENT_TYPES
        · rw [if_pos h3]
        · exact absurd ⟨h2.2, h2.1⟩ h3
      · rw [if_neg h2]
        have h3 : ¬(B.garment_type ∈ PRIMARY_GARMENT_TYPES ∧
            A.garment_type ∈ ACCESSORY_GARMENT_TYPES) := fun hc => h2 ⟨hc.2, hc.1⟩
        have h4 : ¬(B.garment_type ∈ ACCESSORY_GARMENT_TYPES ∧
            A.garment_type ∈ PRIMARY_GARMENT_TYPES) := fun hc => h1 ⟨hc.2, hc.1⟩
        rw [if_neg h3, if_neg h4]
  rw [hs1, hs2, hs3]

/-- Witness for C1 amended: the symmetry theorem applied to the concrete pair
wItemA, wItemB, whose cross-rule memberships fail in both directions. -/
theorem C1_similarity_symmetry_amended_witness :
    (calculate_similarity_score wItemA wItemB).1 = (calculate_similarity_score wItemB wItemA).1 :=
  C1_similarity_symmetry_amended wItemA wItemB (Or.inr (by decide))

theorem variationLoop_no_candidates (src : Item) (l : List Item)
    (h : ∀ c ∈ l, src.gender = c.gender ∨ sharedCount src c < 2) :
    ∀ sel : List Cand, variationLoop src l sel = sel := by
  induction l with
  | nil =>
    intro sel
    rw [variationLoop]
  | cons z rest ih =>
    intro sel
    have hz := h z (List.mem_cons_self z rest)
    have hrest : ∀ c ∈ rest, src.gender = c.gender ∨ sharedCount src c < 2 :=
      fun c hc => h c (List.mem_cons_of_mem z hc)
    rw [variationLoop]
    by_cases h1 : z.image_id = src.image_id ∨ z.image_id ∈ sel.map Cand.image_id
    · rw [if_pos h1]
      exact ih hrest sel
    · rw [if_neg h1]
      have h2 : ¬(src.gender ≠ z.gender ∧ 2 ≤ sharedCount src z) := by
        rcases hz with hz | hz
        · exact fun hc => hc.1 hz
        · exact fun hc => absurd hc.2 (Nat.not_le_of_lt hz)
      rw [if_neg h2]
      exact ih hrest sel

theorem snap7_potential : potentialCandidates snap7 dSrc =
    [⟨"c1", 1 / 4, none⟩, ⟨"c2", 1 / 4, none⟩, ⟨"c3", 1 / 4, none⟩,
     ⟨"c4", 1 / 4, none⟩, ⟨"c5", 1 / 4, none⟩, ⟨"v", 1 / 5, none⟩] := by
  norm_num +decide [potentialCandidates, snap7, dSrc, dAcc1, dAcc2, dAcc3, dAcc4, dAcc5, dVar,
    calculate_similarity_score, sharedTagList, PRIMARY_GARMENT_TYPES, ACCESSORY_GARMENT_TYPES,
    min_def, List.filterMap_cons, List.filterMap_nil]

theorem snap7_sort6 : sortByScoreDesc
    [⟨"c1", 1 / 4, none⟩, ⟨"c2", 1 / 4, none⟩, ⟨"c3", 1 / 4, none⟩,
     ⟨"c4", 1 / 4, none⟩, ⟨"c5", 1 / 4, none⟩, ⟨"v", 1 / 5, none⟩] =
    [⟨"c1", 1 / 4, none⟩, ⟨"c2", 1 / 4, none⟩, ⟨"c3", 1 / 4, none⟩,
     ⟨"c4", 1 / 4, none⟩, ⟨"c5", 1 / 4, none⟩, ⟨"v", 1 / 5, none⟩] := by
  norm_num +decide [sortByScoreDesc, sortOrd, insertOrd, candLe]

theorem snap7_select : selectTopAux
    [⟨"c1", 1 / 4, none⟩, ⟨"c2", 1 / 4, none⟩, ⟨"c3", 1 / 4, none⟩,
     ⟨"c4", 1 / 4, none⟩, ⟨"c5", 1 / 4, none⟩, ⟨"v", 1 / 5, none⟩] [] =
    [⟨"c1", 1 / 4, none⟩, ⟨"c2", 1 / 4, none⟩, ⟨"c3", 1 / 4, none⟩,
     ⟨"c4", 1 / 4, none⟩, ⟨"c5", 1 / 4, none⟩] := by
  norm_num +decide [selectTopAux]

theorem snap7_sharedv : sharedCount dSrc dVar = 2 := by decide

theorem snap7_lowest : lowest
    [⟨"c1", 1 / 4, none⟩, ⟨"c2", 1 / 4, none⟩, ⟨"c3", 1 / 4, none⟩,
     ⟨"c4", 1 / 4, none⟩, ⟨"c5", 1 / 4, none⟩] = (0, 1 / 4) := by
  norm_num [lowest, lowestAux]

theorem snap7_variation : variationLoop dSrc snap7
    [⟨"c1", 1 / 4, none⟩, ⟨"c2", 1 / 4, none⟩, ⟨"c3", 1 / 4, none⟩,
     ⟨"c4", 1 / 4, none⟩, ⟨"c5", 1 / 4, none⟩] =
    [⟨"c2", 1 / 4, none⟩, ⟨"c3", 1 / 4, none⟩, ⟨"c4", 1 / 4, none⟩,
     ⟨"c5", 1 / 4, none⟩, ⟨"v", 3 / 10, some variationReason⟩] := by
  rw [show snap7 = dSrc :: dAcc1 :: dAcc2 :: dAcc3 :: dAcc4 :: dAcc5 :: dVar :: [] from rfl]
  rw [variationLoop, if_pos (by decide)]
  rw [variationLoop, if_pos (by decide)]
  rw [variationLoop, if_pos (by decide)]
  rw [variationLoop, if_pos (by decide)]
  rw [variationLoop, if_pos (by decide)]
  rw [variationLoop, if_pos (by decide)]
  rw [variationLoop, if_neg (by decide), if_pos (by decide)]
  dsimp only
  rw [if_pos (by decide), snap7_lowest]
  dsimp only
  rw [if_pos (by norm_num [snap7_sharedv])]
  rw [snap7_sharedv]
  norm_num [min_def, List.eraseIdx, dVar]

theorem snap7_sort5v : sortByScoreDesc
    [⟨"c2", 1 / 4, none⟩, ⟨"c3", 1 / 4, none⟩, ⟨"c4", 1 / 4, none⟩,
     ⟨"c5", 1 / 4, none⟩, ⟨"v", 3 / 10, some variationReason⟩] =
    [⟨"v", 3 / 10, some variationReason⟩, ⟨"c2", 1 / 4, none⟩, ⟨"c3", 1 / 4, none⟩,
     ⟨"c4", 1 / 4, none⟩, ⟨"c5", 1 / 4, none⟩] := by
  norm_num +decide [sortByScoreDesc, sortOrd, insertOrd, candLe]

theorem snap7_sort5c : sortByScoreDesc
    [⟨"c1", 1 / 4, none⟩, ⟨"c2", 1 / 4, none⟩, ⟨"c3", 1 / 4, none⟩,
     ⟨"c4", 1 / 4, none⟩, ⟨"c5", 1 / 4, none⟩] =
    [⟨"c1", 1 / 4, none⟩, ⟨"c2", 1 / 4, none⟩, ⟨"c3", 1 / 4, none⟩,
     ⟨"c4", 1 / 4, none⟩, ⟨"c5", 1 / 4, none⟩] := by
  norm_num +decide [sortByScoreDesc, sortOrd, insertOrd, candLe]

theorem snap7_final_true : finalSelected snap7 (fun _ => true) dSrc =
    [⟨"v", 3 / 10, some variationReason⟩, ⟨"c2", 1 / 4, none⟩, ⟨"c3", 1 / 4, none⟩,
     ⟨"c4", 1 / 4, none⟩, ⟨"c5", 1 / 4, none⟩] := by
  rw [finalSelected, snap7_potential, snap7_sort6, snap7_select]
  norm_num [snap7_variation, snap7_sort5v]

theorem snap7_final_false : finalSelected snap7 (fun _ => false) dSrc =
    [⟨"c1", 1 / 4, none⟩, ⟨"c2", 1 / 4, none⟩, ⟨"c3", 1 / 4, none⟩,
     ⟨"c4", 1 / 4, none⟩, ⟨"c5", 1 / 4, none⟩] := by
  rw [finalSelected, snap7_potential, snap7_sort6, snap7_select]
  norm_num [snap7_sort5c]

theorem snap7_head_true : ((generate_navigation_paths snap7 (fun _ => true)).head?).map
    NavPath.next_possible_images = some ["v", "c2", "c3", "c4", "c5"] := by
  rw [generate_navigation_paths]
  rw [show snap7 = dSrc :: [dAcc1, dAcc2, dAcc3, dAcc4, dAcc5, dVar] from rfl]
  rw [List.filterMap_cons]
  rw [show (dSrc :: [dAcc1, dAcc2, dAcc3, dAcc4, dAcc5, dVar]) = snap7 from rfl]
  simp only [mkNavPath, snap7_final_true]
  norm_num

theorem snap7_head_false : ((generate_navigation_paths snap7 (fun _ => false)).head?).map
    NavPath.next_possible_images = some ["c1", "c2", "c3", "c4", "c5"] := by
  rw [generate_navigation_paths]
  rw [show snap7 = dSrc :: [dAcc1, dAcc2, dAcc3, dAcc4, dAcc5, dVar] from rfl]
  rw [List.filterMap_cons]
  rw [show (dSrc :: [dAcc1, dAcc2, dAcc3, dAcc4, dAcc5, dVar]) = snap7 from rfl]
  simp only [mkNavPath, snap7_final_false]
  norm_num


/-- Claim C2: the claim that generate_navigation_paths is a pure function of the
catalog snapshot alone is false on the code: the style-variation pass runs
with probability 0.2 even when three primary edges exist, so two builds over
the identical, unchanged snapshot can differ.  On the seven-item snapshot
snap7 a successful trial replaces the lowest-scoring edge of the first source
by the cross-gender candidate, a failed trial leaves the edge set unchanged. -/
theorem C2_counterexample_diversity_trial :
    generate_navigation_paths snap7 (fun _ => true) ≠
    generate_navigation_paths snap7 (fun _ => false) := by
  intro h
  have h2 : (some ["v", "c2", "c3", "c4", "c5"] : Option (List String)) =
      some ["c1", "c2", "c3", "c4", "c5"] := by
    rw [← snap7_head_true, ← snap7_head_false, h]
  exact absurd h2 (by decide)

/-- Amended C2: generate_navigation_paths is a pure function of the snapshot
together with the per-source diversity-trial draws; over a snapshot admitting
no style-variation candidate (no pair of items of different gender sharing at
least 2 style tags) the draws are irrelevant and rebuilding from the unchanged
snapshot is deterministic, one path per qualifying source id. -/
theorem C2_deterministic_amended (snapshot : List Item)
    (h : ∀ src ∈ snapshot, ∀ c ∈ snapshot, src.gender = c.gender ∨ sharedCount src c < 2)
    (c1 c2 : String → Bool) :
    generate_navigation_paths snapshot c1 = generate_navigation_paths snapshot c2 := by
  unfold generate_navigation_paths
  apply List.filterMap_congr
  intro src hsrc
  have hfin : finalSelected snapshot c1 src = finalSelected snapshot c2 src := by
    unfold finalSelected
    dsimp only
    rw [variationLoop_no_candidates src snapshot (h src hsrc)]
    simp only [ite_self]
  unfold mkNavPath
  rw [hfin]

/-- Witness for C2 amended: on the two-item snapshot snap2, whose items share the
same gender, a successful and a failed diversity trial build identical paths. -/
theorem C2_deterministic_amended_witness :
    generate_navigation_paths snap2 (fun _ => true) =
    generate_navigation_paths snap2 (fun _ => false) :=
  C2_deterministic_amended snap2 (by decide) (fun _ => true) (fun _ => false)

theorem round2_fifth : round2 (1 / 5) = 1 / 5 := by
  have h := round2_hundredth 20
  norm_num at h
  exact h

theorem snap3_potential : potentialCandidates snap3 tSrc =
    [⟨"c2", 1 / 5, none⟩, ⟨"c1", 1 / 5, none⟩] := by
  norm_num +decide [potentialCandidates, snap3, tSrc, tBig, tSmall,
    calculate_similarity_score, sharedTagList, PRIMARY_GARMENT_TYPES, ACCESSORY_GARMENT_TYPES,
    min_def, List.filterMap_cons, List.filterMap_nil]

theorem snap3_sort2 : sortByScoreDesc [⟨"c2", 1 / 5, none⟩, ⟨"c1", 1 / 5, none⟩] =
    [⟨"c2", 1 / 5, none⟩, ⟨"c1", 1 / 5, none⟩] := by
  norm_num +decide [sortByScoreDesc, sortOrd, insertOrd, candLe]

theorem snap3_select : selectTopAux [⟨"c2", 1 / 5, none⟩, ⟨"c1", 1 / 5, none⟩] [] =
    [⟨"c2", 1 / 5, none⟩, ⟨"c1", 1 / 5, none⟩] := by
  norm_num +decide [selectTopAux]

theorem snap3_final : finalSelected snap3 (fun _ => false) tSrc =
    [⟨"c2", 1 / 5, none⟩, ⟨"c1", 1 / 5, none⟩] := by
  rw [finalSelected, snap3_potential, snap3_sort2, snap3_select]
  rw [variationLoop_no_candidates tSrc snap3 (by decide)]
  norm_num [snap3_sort2]

/-- Claim C4: the claim that score ties are broken by ascending target id is false
on the code: both sorts order by score only and Python sorting is stable, so
ties keep the candidate-list (catalog) order.  On snap3 the two candidates of
the first source tie at score 0.2 and the output lists the larger id c2
before the smaller id c1. -/
theorem C4_counterexample_tie_order :
    ((generate_navigation_paths snap3 (fun _ => false)).head?.map
      NavPath.next_possible_images = some ["c2", "c1"]) ∧
    ((generate_navigation_paths snap3 (fun _ => false)).head?.map
      NavPath.path_scores = some [1 / 5, 1 / 5]) ∧
    ("c1" : String) < "c2" := by
  refine ⟨?_, ?_, ?_⟩
  · rw [generate_navigation_paths]
    rw [show snap3 = tSrc :: [tBig, tSmall] from rfl]
    rw [List.filterMap_cons]
    rw [show (tSrc :: [tBig, tSmall]) = snap3 from rfl]
    simp only [mkNavPath, snap3_final]
    norm_num
  · rw [generate_navigation_paths]
    rw [show snap3 = tSrc :: [tBig, tSmall] from rfl]
    rw [List.filterMap_cons]
    rw [show (tSrc :: [tBig, tSmall]) = snap3 from rfl]
    simp only [mkNavPath, snap3_final]
    norm_num [round2_fifth]
  · rw [String.lt_iff_toList_lt]
    decide

/-- Amended C4: both candidate sorts of generate_navigation_paths are stable
with respect to the pre-sort candidate order: two candidates with equal scores
keep their existing relative order (catalog order for the primary sort), which
is in general not ascending target id order. -/
theorem C4_stable_tie_amended (l : List Cand) (x y : Cand)
    (hsub : List.Sublist [x, y] l) (hsc : x.score = y.score) :
    List.Sublist [x, y] (sortByScoreDesc l) := by
  have hle : candLe x y = true := decide_eq_true (le_of_eq hsc.symm)
  exact sortOrd_stable candLe x y hle l hsub

/-- Witness for C4 amended: the stability theorem applied to a concrete two
candidate tie. -/
theorem C4_stable_tie_amended_witness :
    List.Sublist [⟨"b", 1 / 5, none⟩, ⟨"a", 1 / 5, none⟩]
      (sortByScoreDesc [(⟨"b", 1 / 5, none⟩ : Cand), ⟨"a", 1 / 5, none⟩]) :=
  C4_stable_tie_amended [⟨"b", 1 / 5, none⟩, ⟨"a", 1 / 5, none⟩]
    ⟨"b", 1 / 5, none⟩ ⟨"a", 1 / 5, none⟩ (List.Sublist.refl _) rfl

theorem snap2_path_mem :
    (⟨"a", ["b"], [1 / 5], generalReason snap2 wItemA [⟨"b", 1 / 5, none⟩]⟩ : NavPath) ∈
    generate_navigation_paths snap2 (fun _ => false) := by
  norm_num +decide [generate_navigation_paths, mkNavPath, finalSelected, potentialCandidates,
    calculate_similarity_score, sharedTagList, sharedCount, sortByScoreDesc, sortOrd, insertOrd,
    candLe, selectTopAux, variationLoop, snap2, wItemA, wItemB,
    PRIMARY_GARMENT_TYPES, ACCESSORY_GARMENT_TYPES, min_def, round2_fifth,
    List.filterMap_cons, List.filterMap_nil]

/-- Witness for C3: the invariants instantiated on the concrete two-item
snapshot snap2 and the path actually built for its first item. -/
theorem C3_navigation_path_invariants_witness :
    ((⟨"a", ["b"], [1 / 5], generalReason snap2 wItemA [⟨"b", 1 / 5, none⟩]⟩ :
        NavPath).next_possible_images.length ≤ 5) ∧
    (∀ q ∈ (⟨"a", ["b"], [1 / 5], generalReason snap2 wItemA [⟨"b", 1 / 5, none⟩]⟩ :
        NavPath).path_scores, 0 ≤ q ∧ q ≤ 1) ∧
    (∀ t ∈ (⟨"a", ["b"], [1 / 5], generalReason snap2 wItemA [⟨"b", 1 / 5, none⟩]⟩ :
        NavPath).next_possible_images, t ≠
      (⟨"a", ["b"], [1 / 5], generalReason snap2 wItemA [⟨"b", 1 / 5, none⟩]⟩ :
        NavPath).source_image_id) ∧
    (⟨"a", ["b"], [1 / 5], generalReason snap2 wItemA [⟨"b", 1 / 5, none⟩]⟩ :
        NavPath).path_scores.Pairwise (fun a b => b ≤ a) :=
  C3_navigation_path_invariants snap2 (fun _ => false)
    ⟨"a", ["b"], [1 / 5], generalReason snap2 wItemA [⟨"b", 1 / 5, none⟩]⟩ snap2_path_mem

/-- Witness for C10: the parallel-array and rounding facts instantiated on the
concrete two-item snapshot snap2 and the path built for its first item. -/
theorem C10_parallel_rounded_scores_witness :
    ((⟨"a", ["b"], [1 / 5], generalReason snap2 wItemA [⟨"b", 1 / 5, none⟩]⟩ :
        NavPath).path_scores.length =
      (⟨"a", ["b"], [1 / 5], generalReason snap2 wItemA [⟨"b", 1 / 5, none⟩]⟩ :
        NavPath).next_possible_images.length) ∧
    (∃ src ∈ snap2,
      (⟨"a", ["b"], [1 / 5], generalReason snap2 wItemA [⟨"b", 1 / 5, none⟩]⟩ :
        NavPath).source_image_id = src.image_id ∧
      (⟨"a", ["b"], [1 / 5], generalReason snap2 wItemA [⟨"b", 1 / 5, none⟩]⟩ :
        NavPath).next_possible_images =
        (finalSelected snap2 (fun _ => false) src).map Cand.image_id ∧
      (⟨"a", ["b"], [1 / 5], generalReason snap2 wItemA [⟨"b", 1 / 5, none⟩]⟩ :
        NavPath).path_scores =
        (finalSelected snap2 (fun _ => false) src).map (fun c => round2 c.score)) ∧
    (∀ q ∈ (⟨"a", ["b"], [1 / 5], generalReason snap2 wItemA [⟨"b", 1 / 5, none⟩]⟩ :
        NavPath).path_scores, ∃ k : ℤ, q = (k : ℚ) / 100) :=
  C10_parallel_rounded_scores snap2 (fun _ => false)
    ⟨"a", ["b"], [1 / 5], generalReason snap2 wItemA [⟨"b", 1 / 5, none⟩]⟩ snap2_path_mem

theorem boostOne_fst (meta : String → Option Item) (srcMeta : Item) (liked : List Item)
    (p : String × RecData) : (boostOne meta srcMeta liked p).1 = p.1 := by
  unfold boostOne
  rcases meta p.1 with _ | cm
  · rfl
  · rfl

/-- Claim C5: for every metadata view, navigation row, click history and source id,
the id list returned by generate_recommendations_for_pair contains neither the
source id nor any id of the click history. -/
theorem C5_excludes_source_and_history (meta : String → Option Item)
    (nav : String → List String × List ℚ) (history : List String) (source : String) :
    ∀ r ∈ (generate_recommendations_for_pair meta nav history source).1,
      r ≠ source ∧ r ∉ history := by
  intro r hr
  unfold generate_recommendations_for_pair at hr
  rcases hm : meta source with _ | srcMeta
  · rw [hm] at hr
    cases hr
  · rw [hm] at hr
    dsimp only at hr
    obtain ⟨p, hp, hpr⟩ := List.mem_map.mp hr
    have hp2 := mem_sortOrd.mp ((List.take_sublist 3 _).subset hp)
    have hfst : ∃ q ∈ filteredCandidates (nav source).1 (nav source).2 history source,
        q.1 = p.1 := by
      unfold boostedCandidates at hp2
      dsimp only at hp2
      split_ifs at hp2 with hl
      · obtain ⟨q, hq, hqp⟩ := List.mem_map.mp hp2
        refine ⟨q, hq, ?_⟩
        rw [← hqp, boostOne_fst]
      · exact ⟨p, hp2, rfl⟩
    obtain ⟨q, hq, hqp⟩ := hfst
    unfold filteredCandidates at hq
    have hpred := List.of_mem_filter hq
    simp only [decide_eq_true_eq] at hpred
    rw [← hpr, ← hqp]
    exact ⟨hpred.1, hpred.2⟩

/-- Witness for C5: the exclusion facts for the concrete recommendation built
from a one-edge navigation row with empty history. -/
theorem C5_excludes_source_and_history_witness :
    ("b" : String) ≠ "a" ∧ ("b" : String) ∉ ([] : List String) :=
  C5_excludes_source_and_history meta5 nav5 [] "a" "b" (by
    norm_num +decide [generate_recommendations_for_pair, meta5, nav5, boostedCandidates,
      filteredCandidates, candidateScores, assocUpsert, sortOrd, insertOrd, pairLe,
      List.zip, List.zipWith])

theorem foldl_boost (cnt : String → Nat) (d : ℚ) (l : List String) : ∀ s : ℚ,
    l.foldl (fun acc t => if 0 < cnt t then acc + (cnt t : ℚ) / d else acc) s
      = s + (l.map (fun t => (cnt t : ℚ) / d)).sum := by
  induction l with
  | nil => intro s; simp
  | cons t ts ih =>
    intro s
    rw [List.foldl_cons, List.map_cons, List.sum_cons]
    by_cases h : 0 < cnt t
    · rw [if_pos h, ih]
      ring
    · rw [if_neg h]
      have h0 : cnt t = 0 := Nat.eq_zero_of_not_pos h
      rw [ih, h0]
      norm_num

/-- Claim C6: for every candidate with resolvable metadata the boosted score equals
the base score plus 0.1 times the history count of each of its style tags,
plus 0.05 times the history count of each of its dominant colors, plus a flat
0.2 exactly when its garment type is liked and differs from the source
garment type; and in the concrete scenario of a history of 3 items tagged
casual, a candidate tagged casual with base score 0.5 is boosted by exactly
0.3 and its reason list mentions casual. -/
theorem C6_boost_formula :
    (∀ (meta : String → Option Item) (srcMeta : Item) (liked : List Item)
        (p : String × RecData) (cm : Item), meta p.1 = some cm →
      (boostOne meta srcMeta liked p).2.score
        = p.2.score
          + (cm.style_tags.map (fun t => ((likedTags liked).count t : ℚ) / 10)).sum
          + (cm.dominant_colors.map (fun c => ((likedColors liked).count c : ℚ) / 20)).sum
          + (if cm.garment_type ≠ "" ∧ 0 < (likedGarments liked).count cm.garment_type ∧
                cm.garment_type ≠ srcMeta.garment_type then 2 / 10 else 0)) ∧
    (boostOne metaCasual srcCasual likedCasual pCasual).2.score = pCasual.2.score + 3 / 10 ∧
    (boostOne metaCasual srcCasual likedCasual pCasual).2.reasons = [casualReason] := by
  refine ⟨?_, ?_, by decide⟩
  · intro meta srcMeta liked p cm hm
    unfold boostOne
    rw [hm]
    dsimp only
    unfold boostScore
    dsimp only
    have h1 := foldl_boost (fun t => (likedTags liked).count t) 10 cm.style_tags p.2.score
    rw [h1]
    have h2 := foldl_boost (fun c => (likedColors liked).count c) 20 cm.dominant_colors
      (p.2.score + (cm.style_tags.map (fun t => ((likedTags liked).count t : ℚ) / 10)).sum)
    rw [h2]
    by_cases hg : cm.garment_type ≠ "" ∧ 0 < (likedGarments liked).count cm.garment_type ∧
        cm.garment_type ≠ srcMeta.garment_type
    · rw [if_pos hg, if_pos hg]
    · rw [if_neg hg, if_neg hg]
      ring
  · norm_num +decide [boostOne, metaCasual, boostScore, likedTags, likedColors, likedGarments,
      likedCasual, likedCasual1, likedCasual2, likedCasual3, cmCasual, srcCasual, pCasual]

/-- Witness for C6: the boost formula applied to the concrete casual scenario. -/
theorem C6_boost_formula_witness :
    (boostOne metaCasual srcCasual likedCasual pCasual).2.score
      = pCasual.2.score
        + (cmCasual.style_tags.map
            (fun t => ((likedTags likedCasual).count t : ℚ) / 10)).sum
        + (cmCasual.dominant_colors.map
            (fun c => ((likedColors likedCasual).count c : ℚ) / 20)).sum
        + (if cmCasual.garment_type ≠ "" ∧
              0 < (likedGarments likedCasual).count cmCasual.garment_type ∧
              cmCasual.garment_type ≠ srcCasual.garment_type then 2 / 10 else 0) :=
  C6_boost_formula.1 metaCasual srcCasual likedCasual pCasual cmCasual (by decide)

theorem dedupSortStrings_nodup (l : List String) : (dedupSortStrings l).Nodup :=
  ((sortOrd_perm strLe l.dedup).nodup_iff).mpr (List.nodup_dedup l)

theorem dedupSortStrings_sorted (l : List String) :
    (dedupSortStrings l).Pairwise (fun a b => a ≤ b) :=
  (pairwise_sortOrd strLe strLe_total strLe_trans l.dedup).imp (fun h => of_decide_eq_true h)

/-- Claim C7: the reason merge of the boosting pass: when the reason list is exactly
the generic placeholder and at least one specific boost reason exists, the
final reasons are the sorted deduplicated boost reasons alone (full
replacement); when the placeholder is absent the boost reasons are appended
before deduplication and sorting; with no boost reason the reasons are left
untouched; and every boosted candidate ends with a duplicate-free,
lexicographically sorted reason list. -/
theorem C7_reason_merge (meta : String → Option Item) (srcMeta : Item) (liked : List Item)
    (p : String × RecData) (cm : Item) (hm : meta p.1 = some cm) :
    (p.2.reasons = [placeholderReason] → boostReasonList srcMeta liked cm ≠ [] →
      (boostOne meta srcMeta liked p).2.reasons
        = dedupSortStrings (boostReasonList srcMeta liked cm)) ∧
    (placeholderReason ∉ p.2.reasons → boostReasonList srcMeta liked cm ≠ [] →
      (boostOne meta srcMeta liked p).2.reasons
        = dedupSortStrings (p.2.reasons ++ boostReasonList srcMeta liked cm)) ∧
    (boostReasonList srcMeta liked cm = [] →
      (boostOne meta srcMeta liked p).2.reasons = p.2.reasons) ∧
    (boostReasonList srcMeta liked cm ≠ [] →
      (boostOne meta srcMeta liked p).2.reasons.Nodup ∧
      (boostOne meta srcMeta liked p).2.reasons.Pairwise (fun a b => a ≤ b)) := by
  have hb : (boostOne meta srcMeta liked p).2.reasons
      = mergeReasons p.2.reasons (boostReasonList srcMeta liked cm) := by
    unfold boostOne
    rw [hm]
  rw [hb]
  unfold mergeReasons
  refine ⟨?_, ?_, ?_, ?_⟩
  · intro h1 h2
    rw [if_pos h2, if_pos (by rw [h1]; exact List.mem_singleton.mpr rfl)]
  · intro h1 h2
    rw [if_pos h2, if_neg h1]
  · intro h1
    rw [if_neg (fun hc => hc h1)]
  · intro h2
    rw [if_pos h2]
    by_cases h3 : placeholderReason ∈ p.2.reasons
    · rw [if_pos h3]
      exact ⟨dedupSortStrings_nodup _, dedupSortStrings_sorted _⟩
    · rw [if_neg h3]
      exact ⟨dedupSortStrings_nodup _, dedupSortStrings_sorted _⟩

/-- Witness for C7: the merge facts for the concrete casual scenario, whose only
pre-boost reason is the placeholder and whose single boost reason replaces it. -/
theorem C7_reason_merge_witness :
    (pCasual.2.reasons = [placeholderReason] →
      boostReasonList srcCasual likedCasual cmCasual ≠ [] →
      (boostOne metaCasual srcCasual likedCasual pCasual).2.reasons
        = dedupSortStrings (boostReasonList srcCasual likedCasual cmCasual)) ∧
    (placeholderReason ∉ pCasual.2.reasons →
      boostReasonList srcCasual likedCasual cmCasual ≠ [] →
      (boostOne metaCasual srcCasual likedCasual pCasual).2.reasons
        = dedupSortStrings (pCasual.2.reasons ++ boostReasonList srcCasual likedCasual cmCasual)) ∧
    (boostReasonList srcCasual likedCasual cmCasual = [] →
      (boostOne metaCasual srcCasual likedCasual pCasual).2.reasons = pCasual.2.reasons) ∧
    (boostReasonList srcCasual likedCasual cmCasual ≠ [] →
      (boostOne metaCasual srcCasual likedCasual pCasual).2.reasons.Nodup ∧
      (boostOne metaCasual srcCasual likedCasual pCasual).2.reasons.Pairwise
        (fun a b => a ≤ b)) :=
  C7_reason_merge metaCasual srcCasual likedCasual pCasual cmCasual (by decide)

theorem sessionSteps_length (allIds : List String) (nav : String → Option (List String))
    (u : String) (rs : List StepRand) : ∀ cur : String,
    (sessionSteps allIds nav u cur rs).length = rs.length := by
  induction rs with
  | nil =>
    intro cur
    rw [sessionSteps]
    rfl
  | cons r rest ih =>
    intro cur
    rw [sessionSteps]
    split_ifs <;> simp [apply_ite List.length, ih]

/-- Claim C8: in the no-write-failure model, every user session recorded by
simulate_user_sessions has between 3 and 7 interaction events inclusive, and
its first recorded event is a click. -/
theorem C8_session_bounds (allIds : List String) (nav : String → Option (List String))
    (rnd : String → UserRand) (u : String) (evs : List Event)
    (h : (u, evs) ∈ simulate_user_sessions allIds nav rnd) :
    (3 ≤ evs.length ∧ evs.length ≤ 7) ∧
    ∃ e rest, evs = e :: rest ∧ e.clicked = true ∧ e.user_id = u := by
  unfold simulate_user_sessions at h
  by_cases hids : allIds = []
  · rw [if_pos hids] at h
    cases h
  · rw [if_neg hids] at h
    obtain ⟨u2, _, heq⟩ := List.mem_map.mp h
    have hu : u2 = u := congrArg Prod.fst heq
    have hevs : evs = simulateSession allIds nav u2 (rnd u2) := (congrArg Prod.snd heq).symm
    subst hu
    rw [hevs]
    unfold simulateSession
    dsimp only
    constructor
    · rw [List.length_cons, sessionSteps_length, List.length_map, List.length_range]
      unfold randint37
      omega
    · exact ⟨_, _, rfl, rfl, rfl⟩

/-- Witness for C8: the bounds and first-click facts for the concrete one-item
catalog, pathless navigation view and all-zero draws, under which user001
records exactly 3 events, all clicks on item a. -/
theorem C8_session_bounds_witness :
    (3 ≤ ([ev8, ev8, ev8] : List Event).length ∧ ([ev8, ev8, ev8] : List Event).length ≤ 7) ∧
    (∃ e rest, ([ev8, ev8, ev8] : List Event) = e :: rest ∧ e.clicked = true ∧
      e.user_id = "user001") :=
  C8_session_bounds allIds8 nav8 rnd8 "user001" [ev8, ev8, ev8] (by
    norm_num +decide [simulate_user_sessions, allIds8, nav8, rnd8, USER_IDS, pad3,
      simulateSession, sessionSteps, randint37, choice, ev8, List.range_succ])

/-- Claim C9: a source item whose metadata cannot be resolved yields the empty
recommendation result, and the batch loop writes nothing for that pair and
continues with the remaining pairs unchanged. -/
theorem C9_missing_source_skips (meta : String → Option Item)
    (nav : String → List String × List ℚ) (histories : String → List String)
    (u src : String) (rest : List (String × String)) (h : meta src = none) :
    generate_recommendations_for_pair meta nav (histories u) src = ([], []) ∧
    runBatch meta nav histories ((u, src) :: rest) = runBatch meta nav histories rest := by
  have h1 : generate_recommendations_for_pair meta nav (histories u) src = ([], []) := by
    unfold generate_recommendations_for_pair
    rw [h]
  refine ⟨h1, ?_⟩
  rw [runBatch, h1]
  simp

/-- Witness for C9: the skip behaviour on a concrete view with no metadata at
all: the pair (u1, a) produces the empty result and writes nothing. -/
theorem C9_missing_source_skips_witness :
    generate_recommendations_for_pair (fun _ => none) nav5 ((fun _ => ([] : List String)) "u1")
        "a" = ([], []) ∧
    runBatch (fun _ => none) nav5 (fun _ => []) [("u1", "a")] =
      runBatch (fun _ => none) nav5 (fun _ => []) [] :=
  C9_missing_source_skips (fun _ => none) nav5 (fun _ => []) "u1" "a" [] rfl
